import Mathlib

/-!
Shallow embedding of the `validate` attribute macro of `zbus-lockstep-macros`
(src/zbus-lockstep-macros/src/lib.rs) and of its helper `resolve_xml_path`.

The embedding models:
* the document model (interfaces, signals, parameter signatures) — the
  concrete types live in the external `zbus::xml` crate, so they are modelled
  from the spec's data model (§3);
* the directory-loading loop of `validate` (lib.rs lines 109–117);
* the signal-resolution scan of `validate` (lib.rs lines 119–211), including
  its early `return`s (ambiguity errors) and its `expect` panics;
* `resolve_xml_path` (lib.rs lines 302–324), with the filesystem and the
  environment reified as explicit parameters.

Rust's `HashMap` iteration order is not a function of the map's contents, so
the scan is modelled over an explicit iteration sequence
`List (Path × Option Document)`; quantifying over that list quantifies over
the possible iteration orders of one and the same mapping.
-/

namespace ZbusLockstep

/-- Document identifiers are paths (`PathBuf` in the source); modelled as
plain strings. -/
abbrev Path := String

/-- Modelled from the spec (§3, the `zbus::xml` types are external to this
crate): a signal has a name and an ordered list of parameter type-signature
tokens. -/
structure Signal where
  name : String
  parameters : List String
deriving DecidableEq

/-- Modelled from the spec (§3): an interface has a name and an ordered list
of signals. -/
structure Interface where
  name : String
  signals : List Signal
deriving DecidableEq

/-- Modelled from the spec (§3): a parsed document is an ordered list of
interfaces; its identifier is the key under which it is stored in the
document mapping, as in the source's `HashMap<PathBuf, String>`. -/
structure Document where
  interfaces : List Interface
deriving DecidableEq

/-- Modelled from the spec (§4.1): `zbus::xml::Node::from_str` is external,
so a raw document text is represented by its parse result — `none` stands
for a text that does not conform to the grammar, `some d` for a text parsing
to `d`. -/
abbrev RawDoc := Option Document

/-- The parsed arguments of the attribute macro (source struct
`ValidateArgs`): optional XML path, optional interface name, optional signal
name. -/
structure ValidateArgs where
  xml : Option Path
  interface : Option String
  signal : Option String
deriving DecidableEq

/-- The three mutable locals of the scan in `validate` (lib.rs lines
119–122): `signal_name` and `xml_path` start as `None`, `interface_name`
starts as the `interface` argument. -/
structure ScanState where
  signal_name : Option String
  interface_name : Option String
  xml_path : Option Path
deriving DecidableEq

/-- The resolution error kinds produced by `validate` after (or during) the
scan, each carrying the search key it reports (lib.rs lines 138–144,
153–160, 171–205). -/
inductive ResolutionErr where
  | ambiguity
  | noInterfaceFound (key : String)
  | noSignalFound (key : String)
  | noDocumentFound (key : String)
deriving DecidableEq

/-- The overall outcome of one run of the macro's resolution: a resolved
triple (interface name, signal name, document path), a compile error, or a
panic (`expect`) with its message. -/
inductive ScanResult where
  | ok (interface_name signal_name : String) (xml_path : Path)
  | error (e : ResolutionErr)
  | panicked (msg : String)
deriving DecidableEq

/-- Auxiliary for substring search: does the first character list start with
the second? -/
def listStartsWith : List Char → List Char → Bool
  | _, [] => true
  | [], _ :: _ => false
  | a :: as, b :: bs => a == b && listStartsWith as bs

/-- Auxiliary for substring search: does the second character list occur
contiguously inside the first? -/
def listContainsSub : List Char → List Char → Bool
  | [], needle => needle.isEmpty
  | a :: as, needle => listStartsWith (a :: as) needle || listContainsSub as needle

/-- Rust's `str::contains` with a string pattern: substring containment. -/
def str_contains (hay needle : String) : Bool :=
  listContainsSub hay.data needle.data

/-- The second `if` of the innermost loop of `validate` (lib.rs lines
151–165): the implicit match `item_name.contains(xml_signal_name)`. On a
match it returns the ambiguity error when `interface_name` is already set,
and records the triple otherwise. -/
def step_signal_second (item_name : String)
    (iface : String) (path_key : Path) (st : ScanState) (s : Signal) :
    Except ScanResult ScanState :=
  if str_contains item_name s.name then
    if st.interface_name.isSome then
      Except.error (ScanResult.error ResolutionErr.ambiguity)
    else
      Except.ok { signal_name := some s.name,
                  interface_name := some iface,
                  xml_path := some path_key }
  else Except.ok st

/-- One iteration of the innermost loop of `validate` (lib.rs lines
132–166), for the signal `s` of interface `iface` of the document stored
under `path_key`. Faithful to the source: the first `if` tests
`signal_arg.is_some() && signal_name == signal_arg` — it compares the
*recorded* `signal_name` against `signal_arg`, not the scanned signal's
name; on a match it returns the ambiguity error when `interface_name` is
already set, and records the triple otherwise. The second `if` (the
implicit match) then runs on the possibly-updated state. -/
def step_signal (args : ValidateArgs) (item_name : String) (iface : String)
    (path_key : Path) (st : ScanState) (s : Signal) :
    Except ScanResult ScanState :=
  if args.signal.isSome ∧ st.signal_name = args.signal then
    if st.interface_name.isSome then
      Except.error (ScanResult.error ResolutionErr.ambiguity)
    else
      step_signal_second item_name iface path_key
        { signal_name := some s.name,
          interface_name := some iface,
          xml_path := some path_key } s
  else step_signal_second item_name iface path_key st s

/-- The loop over one interface's signals (lib.rs line 132), with the
source's early `return`s modelled by `Except.error`. -/
def scan_signals (args : ValidateArgs) (item_name : String) (iface : String)
    (path_key : Path) : List Signal → ScanState → Except ScanResult ScanState
  | [], st => Except.ok st
  | s :: rest, st =>
    match step_signal args item_name iface path_key st s with
    | Except.error e => Except.error e
    | Except.ok st' => scan_signals args item_name iface path_key rest st'

/-- The loop over one document's interfaces (lib.rs line 130). -/
def scan_interfaces (args : ValidateArgs) (item_name : String)
    (path_key : Path) : List Interface → ScanState → Except ScanResult ScanState
  | [], st => Except.ok st
  | i :: rest, st =>
    match scan_signals args item_name i.name path_key i.signals st with
    | Except.error e => Except.error e
    | Except.ok st' => scan_interfaces args item_name path_key rest st'

/-- The loop over the document mapping (lib.rs lines 126–168): each document
is parsed first (`Node::from_str(..).expect("Failed to parse XML file")`, a
panic on malformed text), then its interfaces are scanned. -/
def scan_docs (args : ValidateArgs) (item_name : String) :
    List (Path × RawDoc) → ScanState → Except ScanResult ScanState
  | [], st => Except.ok st
  | pd :: rest, st =>
    match pd.2 with
    | none => Except.error (ScanResult.panicked "Failed to parse XML file")
    | some d =>
      match scan_interfaces args item_name pd.1 d.interfaces st with
      | Except.error e => Except.error e
      | Except.ok st' => scan_docs args item_name rest st'

/-- The post-scan checks of `validate` (lib.rs lines 171–211), in source
order: `interface_name` first, then `signal_name`, then `xml_path`; each
error carries `signal_arg.unwrap_or_else(|| item_name.clone())`. -/
def finish_scan (args : ValidateArgs) (item_name : String) (st : ScanState) :
    ScanResult :=
  let key := args.signal.getD item_name
  match st.interface_name with
  | none => ScanResult.error (ResolutionErr.noInterfaceFound key)
  | some i =>
    match st.signal_name with
    | none => ScanResult.error (ResolutionErr.noSignalFound key)
    | some s =>
      match st.xml_path with
      | none => ScanResult.error (ResolutionErr.noDocumentFound key)
      | some p => ScanResult.ok i s p

/-- The resolution pass of `validate` on an already-loaded document sequence
(lib.rs lines 119–211): run the scan from the initial state
`(None, interface, None)` and apply the post-scan checks. An early `return`
of the source surfaces as the corresponding `ScanResult` directly. -/
def validate_resolve (docs : List (Path × RawDoc)) (args : ValidateArgs)
    (item_name : String) : ScanResult :=
  match scan_docs args item_name docs
      { signal_name := none, interface_name := args.interface,
        xml_path := none } with
  | Except.error r => r
  | Except.ok st => finish_scan args item_name st

/-- One entry of the XML directory, as seen by the loading loop: its path,
its extension (`None` for a file without an extension), and its raw content
(in this embedding, the content's parse result). -/
structure DirEntry where
  path : Path
  extension : Option String
  content : RawDoc
deriving DecidableEq

/-- The directory-loading loop of `validate` (lib.rs lines 109–117), with
an explicit accumulator: for each entry,
`file.path().extension().expect("File has no extension.")` panics when the
extension is absent; otherwise the file is kept iff its extension equals
`"xml"` exactly. -/
def load_loop : List DirEntry → List (Path × RawDoc) →
    Except String (List (Path × RawDoc))
  | [], acc => Except.ok acc
  | file :: rest, acc =>
    match file.extension with
    | none => Except.error "File has no extension."
    | some ext =>
      if ext = "xml" then load_loop rest (acc ++ [(file.path, file.content)])
      else load_loop rest acc

/-- The directory-loading loop started on the empty accumulator. -/
def load_xml_files (entries : List DirEntry) :
    Except String (List (Path × RawDoc)) :=
  load_loop entries []

/-- The loading loop followed by the resolution pass: a panic during loading
aborts the run before any matching is attempted. -/
def validate_run (entries : List DirEntry) (args : ValidateArgs)
    (item_name : String) : ScanResult :=
  match load_xml_files entries with
  | Except.error m => ScanResult.panicked m
  | Except.ok files => validate_resolve files args item_name

/-- The helper `resolve_xml_path` (lib.rs lines 302–324), with the
filesystem and environment reified: `lower_dir_found` states that
`cwd/"xml"` exists, `upper_dir_found` that `cwd/"XML"` exists, and `env_var`
is the value of `ZBUS_LOCKSTEP_XML_PATH` when set. Defaults are only probed
when `xml` is `None` (the `XML` probe overwriting the `xml` probe), and the
environment variable, checked last, overrides everything. -/
def resolve_xml_path (cwd : String) (lower_dir_found upper_dir_found : Bool)
    (env_var : Option String) (xml : Option Path) : Option Path :=
  let xml1 : Option Path :=
    if xml.isNone then
      let xml2 := if lower_dir_found then some (cwd ++ "/xml") else xml
      if upper_dir_found then some (cwd ++ "/XML") else xml2
    else xml
  match env_var with
  | some e => some e
  | none => xml1

/-- Recognizer for the defensive `NoDocumentFound` outcome (lib.rs lines
195–205). -/
def is_noDocumentFound : ScanResult → Bool
  | ScanResult.error (ResolutionErr.noDocumentFound _) => true
  | _ => false

/-- Both recording branches set `signal_name` and `xml_path` together, so
the implicit-match step preserves the invariant that a recorded signal name
comes with a recorded document path. -/
theorem step_signal_second_inv (item_name iface : String) (path_key : Path)
    (st st' : ScanState) (s : Signal)
    (hP : st.signal_name.isSome = true → st.xml_path.isSome = true)
    (h : step_signal_second item_name iface path_key st s = Except.ok st') :
    st'.signal_name.isSome = true → st'.xml_path.isSome = true := by
  unfold step_signal_second at h
  split at h
  · split at h
    · exact absurd h (by simp)
    · cases h
      intro _
      rfl
  · cases h
    exact hP

/-- The full per-signal step preserves the signal-name/document-path
invariant. -/
theorem step_signal_inv (args : ValidateArgs) (item_name iface : String)
    (path_key : Path) (st st' : ScanState) (s : Signal)
    (hP : st.signal_name.isSome = true → st.xml_path.isSome = true)
    (h : step_signal args item_name iface path_key st s = Except.ok st') :
    st'.signal_name.isSome = true → st'.xml_path.isSome = true := by
  unfold step_signal at h
  split at h
  · split at h
    · exact absurd h (by simp)
    · exact step_signal_second_inv item_name iface path_key _ st' s
        (by intro _; rfl) h
  · exact step_signal_second_inv item_name iface path_key st st' s hP h

/-- The signal loop preserves the signal-name/document-path invariant. -/
theorem scan_signals_inv (args : ValidateArgs) (item_name iface : String)
    (path_key : Path) :
    ∀ (sigs : List Signal) (st st' : ScanState),
      (st.signal_name.isSome = true → st.xml_path.isSome = true) →
      scan_signals args item_name iface path_key sigs st = Except.ok st' →
      (st'.signal_name.isSome = true → st'.xml_path.isSome = true)
  | [], st, st', hP, h => by
      unfold scan_signals at h
      cases h
      exact hP
  | s :: rest, st, st', hP, h => by
      unfold scan_signals at h
      cases hs : step_signal args item_name iface path_key st s with
      | error e =>
        rw [hs] at h
        exact absurd h (by simp)
      | ok st1 =>
        rw [hs] at h
        exact scan_signals_inv args item_name iface path_key rest st1 st'
          (step_signal_inv args item_name iface path_key st st1 s hP hs) h

/-- The interface loop preserves the signal-name/document-path invariant. -/
theorem scan_interfaces_inv (args : ValidateArgs) (item_name : String)
    (path_key : Path) :
    ∀ (ifaces : List Interface) (st st' : ScanState),
      (st.signal_name.isSome = true → st.xml_path.isSome = true) →
      scan_interfaces args item_name path_key ifaces st = Except.ok st' →
      (st'.signal_name.isSome = true → st'.xml_path.isSome = true)
  | [], st, st', hP, h => by
      unfold scan_interfaces at h
      cases h
      exact hP
  | i :: rest, st, st', hP, h => by
      unfold scan_interfaces at h
      cases hs : scan_signals args item_name i.name path_key i.signals st with
      | error e =>
        rw [hs] at h
        exact absurd h (by simp)
      | ok st1 =>
        rw [hs] at h
        exact scan_interfaces_inv args item_name path_key rest st1 st'
          (scan_signals_inv args item_name i.name path_key i.signals st st1 hP hs) h

/-- The document loop preserves the signal-name/document-path invariant. -/
theorem scan_docs_inv (args : ValidateArgs) (item_name : String) :
    ∀ (docs : List (Path × RawDoc)) (st st' : ScanState),
      (st.signal_name.isSome = true → st.xml_path.isSome = true) →
      scan_docs args item_name docs st = Except.ok st' →
      (st'.signal_name.isSome = true → st'.xml_path.isSome = true)
  | [], st, st', hP, h => by
      unfold scan_docs at h
      cases h
      exact hP
  | pd :: rest, st, st', hP, h => by
      unfold scan_docs at h
      cases hd : pd.2 with
      | none =>
        rw [hd] at h
        exact absurd h (by simp)
      | some d =>
        rw [hd] at h
        have h' : (match scan_interfaces args item_name pd.1 d.interfaces st with
            | Except.error e => Except.error e
            | Except.ok st1 => scan_docs args item_name rest st1)
            = Except.ok st' := h
        cases hs : scan_interfaces args item_name pd.1 d.interfaces st with
        | error e =>
          rw [hs] at h'
          exact absurd h' (by simp)
        | ok st1 =>
          rw [hs] at h'
          exact scan_docs_inv args item_name rest st1 st'
            (scan_interfaces_inv args item_name pd.1 d.interfaces st st1 hP hs) h'

/-- The implicit-match step only ever throws the ambiguity error. -/
theorem step_signal_second_err (item_name iface : String) (path_key : Path)
    (st : ScanState) (s : Signal) (r : ScanResult)
    (h : step_signal_second item_name iface path_key st s = Except.error r) :
    r = ScanResult.error ResolutionErr.ambiguity := by
  unfold step_signal_second at h
  split at h
  · split at h
    · cases h
      rfl
    · exact absurd h (by simp)
  · exact absurd h (by simp)

/-- The per-signal step only ever throws the ambiguity error. -/
theorem step_signal_err (args : ValidateArgs) (item_name iface : String)
    (path_key : Path) (st : ScanState) (s : Signal) (r : ScanResult)
    (h : step_signal args item_name iface path_key st s = Except.error r) :
    r = ScanResult.error ResolutionErr.ambiguity := by
  unfold step_signal at h
  split at h
  · split at h
    · cases h
      rfl
    · exact step_signal_second_err item_name iface path_key _ s r h
  · exact step_signal_second_err item_name iface path_key st s r h

/-- The signal loop only ever throws the ambiguity error. -/
theorem scan_signals_err (args : ValidateArgs) (item_name iface : String)
    (path_key : Path) :
    ∀ (sigs : List Signal) (st : ScanState) (r : ScanResult),
      scan_signals args item_name iface path_key sigs st = Except.error r →
      r = ScanResult.error ResolutionErr.ambiguity
  | [], st, r, h => by
      unfold scan_signals at h
      exact absurd h (by simp)
  | s :: rest, st, r, h => by
      unfold scan_signals at h
      cases hs : step_signal args item_name iface path_key st s with
      | error e =>
        rw [hs] at h
        cases h
        exact step_signal_err args item_name iface path_key st s r hs
      | ok st1 =>
        rw [hs] at h
        exact scan_signals_err args item_name iface path_key rest st1 r h

/-- The interface loop only ever throws the ambiguity error. -/
theorem scan_interfaces_err (args : ValidateArgs) (item_name : String)
    (path_key : Path) :
    ∀ (ifaces : List Interface) (st : ScanState) (r : ScanResult),
      scan_interfaces args item_name path_key ifaces st = Except.error r →
      r = ScanResult.error ResolutionErr.ambiguity
  | [], st, r, h => by
      unfold scan_interfaces at h
      exact absurd h (by simp)
  | i :: rest, st, r, h => by
      unfold scan_interfaces at h
      cases hs : scan_signals args item_name i.name path_key i.signals st with
      | error e =>
        rw [hs] at h
        cases h
        exact scan_signals_err args item_name i.name path_key i.signals st r hs
      | ok st1 =>
        rw [hs] at h
        exact scan_interfaces_err args item_name path_key rest st1 r h

/-- The document loop only ever throws the ambiguity error or the parse
panic — never a `noDocumentFound` outcome. -/
theorem scan_docs_err (args : ValidateArgs) (item_name : String) :
    ∀ (docs : List (Path × RawDoc)) (st : ScanState) (r : ScanResult),
      scan_docs args item_name docs st = Except.error r →
      is_noDocumentFound r = false
  | [], st, r, h => by
      unfold scan_docs at h
      exact absurd h (by simp)
  | pd :: rest, st, r, h => by
      unfold scan_docs at h
      cases hd : pd.2 with
      | none =>
        rw [hd] at h
        cases h
        rfl
      | some d =>
        rw [hd] at h
        have h' : (match scan_interfaces args item_name pd.1 d.interfaces st with
            | Except.error e => Except.error e
            | Except.ok st1 => scan_docs args item_name rest st1)
            = Except.error r := h
        cases hs : scan_interfaces args item_name pd.1 d.interfaces st with
        | error e =>
          rw [hs] at h'
          cases h'
          rw [scan_interfaces_err args item_name pd.1 d.interfaces st r hs]
          rfl
        | ok st1 =>
          rw [hs] at h'
          exact scan_docs_err args item_name rest st1 r h'

/-- No signal of document `d` is a substring of `item_name`. -/
def doc_has_no_implicit_match (item_name : String) (d : Document) : Bool :=
  d.interfaces.all (fun i =>
    i.signals.all (fun g => !(str_contains item_name g.name)))

/-- No signal of document `d` is named `s`. -/
def doc_lacks_signal_named (s : String) (d : Document) : Bool :=
  d.interfaces.all (fun i => i.signals.all (fun g => !(g.name == s)))

/-- On the empty scan state, a signal that is not a substring of the
structure identifier changes nothing: the explicit branch cannot fire
because the recorded `signal_name` (still `None`) is compared against
`signal_arg`, and the implicit branch does not fire. -/
theorem step_signal_nomatch (args : ValidateArgs) (item_name iface : String)
    (path_key : Path) (s : Signal)
    (hc : str_contains item_name s.name = false) :
    step_signal args item_name iface path_key
      { signal_name := none, interface_name := none, xml_path := none } s
      = Except.ok { signal_name := none, interface_name := none,
                    xml_path := none } := by
  cases hs : args.signal <;>
    simp [step_signal, step_signal_second, hs, hc]

/-- A signal list with no implicit match leaves the empty scan state
unchanged. -/
theorem scan_signals_nomatch (args : ValidateArgs) (item_name iface : String)
    (path_key : Path) :
    ∀ (sigs : List Signal),
      sigs.all (fun g => !(str_contains item_name g.name)) = true →
      scan_signals args item_name iface path_key sigs
        { signal_name := none, interface_name := none, xml_path := none }
        = Except.ok { signal_name := none, interface_name := none,
                      xml_path := none }
  | [], _ => rfl
  | s :: rest, hall => by
      simp only [List.all_cons, Bool.and_eq_true] at hall
      obtain ⟨h1, h2⟩ := hall
      have hc : str_contains item_name s.name = false := by
        simpa using h1
      unfold scan_signals
      rw [step_signal_nomatch args item_name iface path_key s hc]
      exact scan_signals_nomatch args item_name iface path_key rest h2

/-- An interface list with no implicit match leaves the empty scan state
unchanged. -/
theorem scan_interfaces_nomatch (args : ValidateArgs) (item_name : String)
    (path_key : Path) :
    ∀ (ifaces : List Interface),
      ifaces.all (fun i =>
        i.signals.all (fun g => !(str_contains item_name g.name))) = true →
      scan_interfaces args item_name path_key ifaces
        { signal_name := none, interface_name := none, xml_path := none }
        = Except.ok { signal_name := none, interface_name := none,
                      xml_path := none }
  | [], _ => rfl
  | i :: rest, hall => by
      simp only [List.all_cons, Bool.and_eq_true] at hall
      obtain ⟨h1, h2⟩ := hall
      unfold scan_interfaces
      rw [scan_signals_nomatch args item_name i.name path_key i.signals h1]
      exact scan_interfaces_nomatch args item_name path_key rest h2

/-- A document sequence in which every document parses and no signal is a
substring of the structure identifier leaves the empty scan state
unchanged. -/
theorem scan_docs_nomatch (args : ValidateArgs) (item_name : String) :
    ∀ (docs : List (Path × RawDoc)),
      docs.all (fun pd => match pd.2 with
        | none => false
        | some d => doc_has_no_implicit_match item_name d) = true →
      scan_docs args item_name docs
        { signal_name := none, interface_name := none, xml_path := none }
        = Except.ok { signal_name := none, interface_name := none,
                      xml_path := none }
  | [], _ => rfl
  | pd :: rest, hall => by
      simp only [List.all_cons, Bool.and_eq_true] at hall
      obtain ⟨h1, h2⟩ := hall
      obtain ⟨pk, rd⟩ := pd
      cases rd with
      | none => exact absurd h1 (by simp)
      | some d =>
        have h1' : doc_has_no_implicit_match item_name d = true := h1
        show (match scan_interfaces args item_name pk d.interfaces
            { signal_name := none, interface_name := none, xml_path := none } with
          | Except.error e => Except.error e
          | Except.ok st' => scan_docs args item_name rest st')
          = Except.ok { signal_name := none, interface_name := none,
                        xml_path := none }
        rw [scan_interfaces_nomatch args item_name pk d.interfaces h1']
        exact scan_docs_nomatch args item_name rest h2

/-- If some entry of the directory has no extension, the loading loop
reaches it and `expect` fires, whatever the accumulator holds so far. -/
theorem load_loop_missing_extension :
    ∀ (entries : List DirEntry) (acc : List (Path × RawDoc)),
      entries.any (fun e => e.extension.isNone) = true →
      load_loop entries acc = Except.error "File has no extension."
  | [], _, h => by simp at h
  | e :: rest, acc, h => by
      unfold load_loop
      cases hx : e.extension with
      | none => rfl
      | some ext =>
        have h2 : rest.any (fun e => e.extension.isNone) = true := by
          simp only [List.any_cons, Bool.or_eq_true] at h
          cases h with
          | inl h1 => rw [hx] at h1; simp at h1
          | inr h2 => exact h2
        change (if ext = "xml" then load_loop rest (acc ++ [(e.path, e.content)])
          else load_loop rest acc) = _
        by_cases he : ext = "xml"
        · rw [if_pos he]
          exact load_loop_missing_extension rest _ h2
        · rw [if_neg he]
          exact load_loop_missing_extension rest acc h2

/-- If every entry has an extension, the loading loop keeps exactly the
entries whose extension is the literal string `"xml"`, in directory
order. -/
theorem load_loop_all_extensions :
    ∀ (entries : List DirEntry) (acc : List (Path × RawDoc)),
      entries.all (fun e => e.extension.isSome) = true →
      load_loop entries acc = Except.ok
        (acc ++ (entries.filter (fun e => e.extension == some "xml")).map
          (fun e => (e.path, e.content)))
  | [], acc, _ => by simp [load_loop]
  | e :: rest, acc, h => by
      simp only [List.all_cons, Bool.and_eq_true] at h
      obtain ⟨h1, h2⟩ := h
      unfold load_loop
      cases hx : e.extension with
      | none => rw [hx] at h1; simp at h1
      | some ext =>
        change (if ext = "xml" then load_loop rest (acc ++ [(e.path, e.content)])
          else load_loop rest acc) = _
        by_cases he : ext = "xml"
        · rw [if_pos he]
          rw [load_loop_all_extensions rest (acc ++ [(e.path, e.content)]) h2]
          subst he
          simp [List.filter_cons, hx]
        · rw [if_neg he]
          rw [load_loop_all_extensions rest acc h2]
          simp [List.filter_cons, hx, he]

/-- Convenience constructor: a document with a single interface holding a
single signal. -/
def oneSignalDoc (iface sig : String) (params : List String) : Document :=
  Document.mk [Interface.mk iface [Signal.mk sig params]]

/-- The iteration-order counterexample documents for the determinism claim:
one document whose only signal is `Foo` under interface `I1`, and one whose
only signal is `Qux` under interface `I2`. -/
def docFoo : Path × RawDoc := ("a.xml", some (oneSignalDoc "I1" "Foo" []))

/-- Companion document of `docFoo` for the determinism counterexample. -/
def docQux : Path × RawDoc := ("b.xml", some (oneSignalDoc "I2" "Qux" []))

/-- C1: the claim says that when `hint.explicit_signal_name` is set, equals
a signal's name, and no prior match was recorded, the resolver records that
signal as an explicit match. On the code this fails: line 135 compares the
recorded `signal_name` (still `None` when no prior match exists) against
`signal_arg` instead of comparing the scanned signal's name, so the
explicit branch can never record a first match. Here the only signal is
named exactly the explicit hint `"Removed"`, the structure identifier
`"Foo"` matches nothing, and resolution ends with the no-interface error
instead of recording the signal. -/
theorem C1_explicit_hint_never_matches :
    validate_resolve [("a.xml", some (oneSignalDoc "I" "Removed" ["s"]))]
      (ValidateArgs.mk none none (some "Removed")) "Foo"
      = ScanResult.error (ResolutionErr.noInterfaceFound "Removed") := by
  decide

/-- C2: the claim says that when two distinct signals both satisfy a match
condition (explicit or implicit) for the same hint, resolution fails with
the ambiguity error and never silently returns one candidate. On the code
this fails: `Sig` satisfies the implicit condition (substring of
`"SigStruct"`) and `Other` satisfies the explicit condition (equal to the
explicit hint `"Other"`), yet — because line 135 compares the recorded
`signal_name` instead of the scanned name — the scan never notices `Other`
and silently resolves to `Sig`. -/
theorem C2_double_match_silently_resolved :
    validate_resolve
      [("a.xml", some (Document.mk
        [Interface.mk "I1" [Signal.mk "Sig" []],
         Interface.mk "I2" [Signal.mk "Other" []]]))]
      (ValidateArgs.mk none none (some "Other")) "SigStruct"
      = ScanResult.ok "I1" "Sig" "a.xml" := by
  decide

/-- C3: the claim says that supplying `hint.explicit_interface_name` does
not change the outcome for a uniquely matching signal. On the code this
fails: line 121 pre-seeds `interface_name` with the hint, so the unique
implicit match of `NodeRemoved` inside `"NodeRemovedHappening"` trips the
`interface_name.is_some()` ambiguity check at its first occurrence — with
the hint the run errors, without it the same input succeeds. -/
theorem C3_interface_hint_forces_ambiguity :
    validate_resolve
      [("a.xml", some (oneSignalDoc "org.example.Node" "NodeRemoved" ["s"]))]
      (ValidateArgs.mk none (some "org.example.Node") none)
      "NodeRemovedHappening"
      = ScanResult.error ResolutionErr.ambiguity
    ∧ validate_resolve
      [("a.xml", some (oneSignalDoc "org.example.Node" "NodeRemoved" ["s"]))]
      (ValidateArgs.mk none none none) "NodeRemovedHappening"
      = ScanResult.ok "org.example.Node" "NodeRemoved" "a.xml" := by
  exact ⟨by decide, by decide⟩

/-- C4 counterexample: with explicit signal hint `"Removed"`, no signal of
that name, a structure identifier matching nothing, and no interface hint,
resolution returns the `noInterfaceFound` error (lib.rs line 171 fires
first), not the `noSignalFound` error the claim expects. -/
theorem C4_counterexample :
    validate_resolve [("a.xml", some (oneSignalDoc "I" "Kept" []))]
      (ValidateArgs.mk none none (some "Removed")) "Foo"
      = ScanResult.error (ResolutionErr.noInterfaceFound "Removed")
    ∧ decide (validate_resolve [("a.xml", some (oneSignalDoc "I" "Kept" []))]
      (ValidateArgs.mk none none (some "Removed")) "Foo"
      = ScanResult.error (ResolutionErr.noSignalFound "Removed")) = false := by
  exact ⟨by decide, by decide⟩

/-- C4 (amended): for every parsed document set in which the explicit
signal name `s` names no signal and the structure identifier matches
nothing, a hint with explicit signal name `s` and no interface hint makes
resolution fail with the `noInterfaceFound` error kind carrying `s` (the
`noSignalFound` kind is only reachable when an explicit interface hint
pre-seeds `interface_name`). -/
theorem C4_no_match_error_kind (docs : List (Path × RawDoc))
    (s item_name : String)
    (hdocs : docs.all (fun pd => match pd.2 with
      | none => false
      | some d => doc_lacks_signal_named s d
          && doc_has_no_implicit_match item_name d) = true) :
    validate_resolve docs (ValidateArgs.mk none none (some s)) item_name
      = ScanResult.error (ResolutionErr.noInterfaceFound s) := by
  have hmatch : docs.all (fun pd => match pd.2 with
      | none => false
      | some d => doc_has_no_implicit_match item_name d) = true := by
    rw [List.all_eq_true] at hdocs ⊢
    intro pd hpd
    have h1 := hdocs pd hpd
    cases hd : pd.2 with
    | none => rw [hd] at h1; exact absurd h1 (by simp)
    | some d =>
      rw [hd] at h1
      have h2 : (doc_lacks_signal_named s d
          && doc_has_no_implicit_match item_name d) = true := h1
      simp only [Bool.and_eq_true] at h2
      exact h2.2
  unfold validate_resolve
  rw [scan_docs_nomatch (ValidateArgs.mk none none (some s))
    item_name docs hmatch]
  rfl

/-- C4 witness: the amended statement applied to a concrete document set
with one non-matching signal. -/
theorem C4_witness :
    validate_resolve [("a.xml", some (oneSignalDoc "I" "Kept" []))]
      (ValidateArgs.mk none none (some "Removed")) "Foo"
      = ScanResult.error (ResolutionErr.noInterfaceFound "Removed") :=
  C4_no_match_error_kind [("a.xml", some (oneSignalDoc "I" "Kept" []))]
    "Removed" "Foo" (by decide)

/-- C5: the claim says resolution is a function of the (documents mapping,
hint) pair. On the code this fails: the scan iterates a `HashMap`, whose
iteration order is not determined by the mapping's contents, and the buggy
explicit branch (line 135) fires on any signal scanned *after* an implicit
match whose recorded name equals `signal_arg`. The two orders of the same
two-document mapping below therefore yield an ambiguity error in one
iteration order and a successful triple in the other. -/
theorem C5_iteration_order_changes_result :
    validate_resolve [docFoo, docQux]
      (ValidateArgs.mk none none (some "Foo")) "FooX"
      = ScanResult.error ResolutionErr.ambiguity
    ∧ validate_resolve [docQux, docFoo]
      (ValidateArgs.mk none none (some "Foo")) "FooX"
      = ScanResult.ok "I1" "Foo" "a.xml"
    ∧ List.Perm [docFoo, docQux] [docQux, docFoo] := by
  exact ⟨by decide, by decide, List.Perm.swap docQux docFoo []⟩

/-- C6: document-location precedence. The environment variable, when set,
wins regardless of the path argument; with the environment unset, a given
path argument is returned untouched whatever the default directories
contain; only with both absent does the default convention (the `XML`
probe overriding the `xml` probe) decide. -/
theorem C6_xml_path_precedence (cwd : String)
    (lower_dir_found upper_dir_found : Bool) (env_var : Option String)
    (xml : Option Path) :
    (∀ v, env_var = some v →
      resolve_xml_path cwd lower_dir_found upper_dir_found env_var xml = some v)
    ∧ (env_var = none → ∀ q, xml = some q →
      resolve_xml_path cwd lower_dir_found upper_dir_found env_var xml = some q)
    ∧ (env_var = none → xml = none →
      resolve_xml_path cwd lower_dir_found upper_dir_found env_var xml
        = if upper_dir_found then some (cwd ++ "/XML")
          else if lower_dir_found then some (cwd ++ "/xml") else none) := by
  refine ⟨?_, ?_, ?_⟩
  · intro v hv
    subst hv
    rfl
  · intro he q hq
    subst he
    subst hq
    rfl
  · intro he hx
    subst he
    subst hx
    cases upper_dir_found <;> cases lower_dir_found <;>
      simp [resolve_xml_path]

/-- C6 witness: the precedence theorem applied at concrete inputs, one per
tier. -/
theorem C6_xml_path_precedence_witness :
    resolve_xml_path "/crate" true true (some "/env/api.xml") (some "/arg")
      = some "/env/api.xml"
    ∧ resolve_xml_path "/crate" true true none (some "/arg") = some "/arg"
    ∧ resolve_xml_path "/crate" true true none none
      = if true then some ("/crate" ++ "/XML")
        else if true then some ("/crate" ++ "/xml") else none :=
  ⟨(C6_xml_path_precedence "/crate" true true (some "/env/api.xml")
      (some "/arg")).1 "/env/api.xml" rfl,
   (C6_xml_path_precedence "/crate" true true none (some "/arg")).2.1
      rfl "/arg" rfl,
   (C6_xml_path_precedence "/crate" true true none none).2.2 rfl rfl⟩

/-- C7 counterexample: a document that fails to parse aborts the run with
the fixed panic message `"Failed to parse XML file"`, and that message does
not contain the offending document's identifier `"bad.xml"` — the claim
that the failure names the offending document is false. -/
theorem C7_counterexample :
    validate_resolve [("bad.xml", none)] (ValidateArgs.mk none none none)
      "Foo"
      = ScanResult.panicked "Failed to parse XML file"
    ∧ str_contains "Failed to parse XML file" "bad.xml" = false := by
  exact ⟨by decide, by decide⟩

/-- C7 (amended): a raw document text that does not conform to the grammar
aborts the run with the fixed panic message `"Failed to parse XML file"`;
the outcome is identical for every document identifier, so the failure does
not name which document failed. -/
theorem C7_parse_failure_generic_panic (id1 id2 : Path)
    (rest : List (Path × RawDoc)) (args : ValidateArgs) (item_name : String) :
    validate_resolve ((id1, none) :: rest) args item_name
      = ScanResult.panicked "Failed to parse XML file"
    ∧ validate_resolve ((id1, none) :: rest) args item_name
      = validate_resolve ((id2, none) :: rest) args item_name :=
  ⟨rfl, rfl⟩

/-- C7 witness: the amended statement applied at a concrete malformed
document. -/
theorem C7_witness :
    validate_resolve [("bad1.xml", none)] (ValidateArgs.mk none none none)
      "Foo"
      = ScanResult.panicked "Failed to parse XML file"
    ∧ validate_resolve [("bad1.xml", none)] (ValidateArgs.mk none none none)
      "Foo"
      = validate_resolve [("bad2.xml", none)] (ValidateArgs.mk none none none)
      "Foo" :=
  C7_parse_failure_generic_panic "bad1.xml" "bad2.xml" []
    (ValidateArgs.mk none none none) "Foo"

/-- C8: the defensive `NoDocumentFound` branch (lib.rs lines 195–205) is
unreachable: for every document sequence and hint, the run never produces
that error kind, because both recording branches of the scan set
`signal_name` and `xml_path` together, so a recorded signal name always
comes with a recorded document identifier. -/
theorem C8_noDocumentFound_unreachable (docs : List (Path × RawDoc))
    (args : ValidateArgs) (item_name : String) :
    is_noDocumentFound (validate_resolve docs args item_name) = false := by
  unfold validate_resolve
  cases h : scan_docs args item_name docs
      { signal_name := none, interface_name := args.interface,
        xml_path := none } with
  | error r => exact scan_docs_err args item_name docs _ r h
  | ok st =>
    have hinv := scan_docs_inv args item_name docs _ st
      (by intro hh; exact absurd hh (by simp)) h
    obtain ⟨sn, info, xp⟩ := st
    cases info with
    | none => rfl
    | some i =>
      cases sn with
      | none => rfl
      | some s0 =>
        cases xp with
        | none => exact absurd (hinv rfl) (by simp)
        | some p => rfl

/-- C8 witness: the unreachability statement applied at a concrete input
that resolves successfully. -/
theorem C8_witness :
    is_noDocumentFound (validate_resolve
      [("a.xml", some (oneSignalDoc "I" "Sig" []))]
      (ValidateArgs.mk none none none) "SigStruct") = false :=
  C8_noDocumentFound_unreachable
    [("a.xml", some (oneSignalDoc "I" "Sig" []))]
    (ValidateArgs.mk none none none) "SigStruct"

/-- C9: if any entry of the XML directory has no extension, the loading
loop panics with `"File has no extension."` before any matching is
attempted — the outcome is independent of the hint and of every other
file's content, and the extension-less file is not silently skipped. -/
theorem C9_missing_extension_panics (entries : List DirEntry)
    (args : ValidateArgs) (item_name : String)
    (h : entries.any (fun e => e.extension.isNone) = true) :
    validate_run entries args item_name
      = ScanResult.panicked "File has no extension." := by
  unfold validate_run load_xml_files
  rw [load_loop_missing_extension entries [] h]

/-- C9 witness: a directory with one well-formed XML file and one
extension-less file panics during loading. -/
theorem C9_witness :
    validate_run
      [DirEntry.mk "a.xml" (some "xml") (some (oneSignalDoc "I" "Sig" [])),
       DirEntry.mk "README" none none]
      (ValidateArgs.mk none none none) "SigStruct"
      = ScanResult.panicked "File has no extension." :=
  C9_missing_extension_panics
    [DirEntry.mk "a.xml" (some "xml") (some (oneSignalDoc "I" "Sig" [])),
     DirEntry.mk "README" none none]
    (ValidateArgs.mk none none none) "SigStruct" (by decide)

/-- C10: the extension filter is exact and case-sensitive — whenever every
entry has an extension, the loaded document set is exactly the entries
whose extension is the literal lowercase `"xml"`, in directory order; in
particular a file with extension `"XML"` is silently excluded; and when
both default directories `cwd/"xml"` and `cwd/"XML"` exist (no path
argument, no environment override), `resolve_xml_path` selects
`cwd/"XML"`. -/
theorem C10_extension_filter_exact (entries : List DirEntry)
    (cwd p : String) (c : RawDoc)
    (h : entries.all (fun e => e.extension.isSome) = true) :
    load_xml_files entries = Except.ok
      ((entries.filter (fun e => e.extension == some "xml")).map
        (fun e => (e.path, e.content)))
    ∧ load_xml_files [DirEntry.mk p (some "XML") c] = Except.ok []
    ∧ resolve_xml_path cwd true true none none = some (cwd ++ "/XML") := by
  refine ⟨?_, rfl, rfl⟩
  have hl := load_loop_all_extensions entries [] h
  simpa [load_xml_files] using hl

/-- C10 witness: the filter statement applied to a directory holding one
`xml` file, one `XML` file and one `txt` file. -/
theorem C10_witness :
    load_xml_files
      [DirEntry.mk "a.xml" (some "xml") none,
       DirEntry.mk "b.XML" (some "XML") none,
       DirEntry.mk "c.txt" (some "txt") none]
      = Except.ok
      (([DirEntry.mk "a.xml" (some "xml") none,
         DirEntry.mk "b.XML" (some "XML") none,
         DirEntry.mk "c.txt" (some "txt") none].filter
          (fun e => e.extension == some "xml")).map
        (fun e => (e.path, e.content)))
    ∧ load_xml_files [DirEntry.mk "d" (some "XML") none] = Except.ok []
    ∧ resolve_xml_path "/crate" true true none none
      = some ("/crate" ++ "/XML") :=
  C10_extension_filter_exact
    [DirEntry.mk "a.xml" (some "xml") none,
     DirEntry.mk "b.XML" (some "XML") none,
     DirEntry.mk "c.txt" (some "txt") none]
    "/crate" "d" none (by decide)

end ZbusLockstep
